import Mathlib

/-!
Shallow embedding of the MoE grouped-GEMM configuration-selection and dispatch
engine from `onnxruntime/contrib_ops/cuda/moe/ft_moe/moe_gemm_kernels_template.h`
(namespace `ort_fastertransformer`).

The C++ code is a tower of template dispatchers ending in a single CUTLASS
grouped-GEMM kernel launch.  We embed it as pure Lean functions.  Side effects
(device queries, the kernel launch) are recorded in an explicit event trace;
`ORT_THROW` becomes `Except.error` carrying the thrown message.  Template
parameters (element type, weight type, architecture tag, epilogue tag, tile and
warp shapes, stage count) become ordinary value parameters: the element/weight
types are abstracted to the two booleans the dispatch logic actually branches
on (`T == float`, `T != WeightType`), matching the SFINAE conditions in the
source.
-/

namespace MoeGemm

/-- `CutlassTileConfig` tags used by this translation unit (from
`ft_gemm_configs.h`; the switch statements in
`dispatch_moe_gemm_to_cutlass` name exactly these cases). -/
inductive CutlassTileConfig where
  | Undefined
  | ChooseWithHeuristic
  | CtaShape32x128x64_WarpShape32x32x64
  | CtaShape64x128x64_WarpShape32x64x64
  | CtaShape64x128x64_WarpShape64x32x64
  | CtaShape128x128x64_WarpShape64x32x64
  | CtaShape128x128x64_WarpShape128x32x64
  | CtaShape128x128x8_WarpShape64x64x8
  deriving DecidableEq, Repr

/-- `SplitKStyle` (from `ft_gemm_configs.h`). -/
inductive SplitKStyle where
  | NO_SPLIT_K
  | SPLIT_K_SERIAL
  deriving DecidableEq, Repr

/-- `CutlassGemmConfig`: tile tag, split-k style and factor, pipeline stages. -/
structure CutlassGemmConfig where
  tile_config : CutlassTileConfig
  split_k_style : SplitKStyle
  split_k_factor : Int
  stages : Int
  deriving DecidableEq, Repr

/-- The three CUTLASS architecture tags instantiated by `dispatch_to_arch`. -/
inductive Arch where
  | Sm70
  | Sm75
  | Sm80
  deriving DecidableEq, Repr

/-- `arch::kMinComputeCapability` for each architecture tag. -/
def Arch.kMinComputeCapability : Arch → Int
  | .Sm70 => 70
  | .Sm75 => 75
  | .Sm80 => 80

/-- Epilogue tags passed as the `EpilogueTag` template argument
(from `epilogue_helpers.h`, as used by `moe_gemm_bias_act` / `moe_gemm`). -/
inductive EpilogueTag where
  | EpilogueOpBias
  | EpilogueOpBiasReLU
  | EpilogueOpBiasFtGelu
  | EpilogueOpBiasSilu
  | EpilogueOpNoBias
  deriving DecidableEq, Repr

/-- `ActivationType` (from `moe_gemm_kernels.h`): the four real activations plus
the explicit invalid/unset sentinel. -/
inductive ActivationType where
  | Gelu
  | Relu
  | Silu
  | Identity
  | InvalidType
  deriving DecidableEq, Repr

/-- A CUTLASS `GemmShape<M, N, K>`. -/
structure GemmShape where
  m : Nat
  n : Nat
  k : Nat
  deriving DecidableEq, Repr

/-- The data identifying one fully instantiated `GemmKernel` template:
element-type flags, architecture, epilogue tag, threadblock shape, warp shape
and stage count.  `elemIsFloat` models `std::is_same<T, float>::value`;
`weightOnly` models `!std::is_same<T, WeightType>::value`. -/
structure KernelId where
  elemIsFloat : Bool
  weightOnly : Bool
  arch : Arch
  epilogue : EpilogueTag
  tb : GemmShape
  warp : GemmShape
  stages : Int
  deriving DecidableEq, Repr

/-- The caller-supplied problem description threaded through every dispatch
layer (pointers are not modelled; the scalar extents and the row-boundary
table are). -/
structure GemmArgs where
  total_rows : Int
  gemm_n : Int
  gemm_k : Int
  num_experts : Int
  total_rows_before_expert : List Int
  deriving DecidableEq, Repr

/-- Observable device-side effects of one invocation, in program order:
the `compute_occupancy_for_kernel` query (occupancy-probe mode), the
`maximum_active_blocks` query, the `can_implement` pre-flight check, the
`gemm.initialize` call, and the `gemm.run` kernel launch. -/
inductive Event where
  | occupancyQuery (k : KernelId)
  | maxActiveBlocksQuery (k : KernelId)
  | feasibilityCheck (k : KernelId)
  | kernelInit (k : KernelId)
  | kernelLaunch (k : KernelId) (cfg : CutlassGemmConfig) (threadblock_count : Int)
      (args : GemmArgs)
  deriving DecidableEq, Repr

/-- True exactly on a `kernelLaunch` event. -/
def Event.isLaunch : Event → Bool
  | .kernelLaunch _ _ _ _ => true
  | _ => false

/-- True exactly on an `occupancyQuery` event. -/
def Event.isOccQuery : Event → Bool
  | .occupancyQuery _ => true
  | _ => false

/-- True on any event that queries or touches the device. -/
def Event.isDeviceQuery : Event → Bool
  | _ => true

/-- Abstract device/CUTLASS capability model.  `computeOccupancyForKernel`
stands for `compute_occupancy_for_kernel<GemmKernel>()` (`compute_occupancy.h`),
`maximumActiveBlocks` for `GemmGrouped::maximum_active_blocks()`, and
`canImplement` / `initGemm` / `runGemm` for the three CUTLASS status-returning
calls in the launcher (`none` models `cutlass::Status::kSuccess`; `some msg`
models a failure status with message `msg`). -/
structure Device where
  computeOccupancyForKernel : KernelId → Int
  maximumActiveBlocks : KernelId → Int
  canImplement : KernelId → GemmArgs → Option String
  initGemm : KernelId → GemmArgs → Option String
  runGemm : KernelId → GemmArgs → Option String

/-- One dispatch-layer outcome: the device-effect trace and either the thrown
message or the value written through the `int* kernel_occupancy` out-pointer
(`some occ` when the launcher wrote `occ`; `none` when the pointer was null). -/
abbrev DispatchResult := List Event × Except String (Option Int)

/-- The `GemmKernel` instantiation determined by the launcher's template
arguments.  (In the source this is the type-level combination of
T/WeightType/arch/EpilogueTag/ThreadblockShape/WarpShape/Stages.) -/
def mkKernelId (elemIsFloat weightOnly : Bool) (arch : Arch) (epi : EpilogueTag)
    (tb warp : GemmShape) (stages : Int) : KernelId :=
  ⟨elemIsFloat, weightOnly, arch, epi, tb, warp, stages⟩

/-- `generic_moe_gemm_kernelLauncher` (lines 64-157).  Checks split-k first;
in occupancy-probe mode (`probe = true`, i.e. `kernel_occupancy != nullptr`)
writes the computed occupancy and returns; otherwise computes
`occupancy = min(2, maximum_active_blocks())`, fails if it is zero, builds
`threadblock_count = multi_processor_count * occupancy`, then runs the
`can_implement` / `initialize` / `run` sequence, throwing on any failure
status. -/
def generic_moe_gemm_kernelLauncher (dev : Device) (elemIsFloat weightOnly : Bool)
    (arch : Arch) (epi : EpilogueTag) (tb warp : GemmShape) (stages : Int)
    (args : GemmArgs) (gemm_config : CutlassGemmConfig) (multi_processor_count : Int)
    (probe : Bool) : DispatchResult :=
  if gemm_config.split_k_style ≠ SplitKStyle.NO_SPLIT_K then
    ([], .error "[FT Error][MoeGemm] Grouped gemm does not support split-k")
  else if probe then
    ([Event.occupancyQuery (mkKernelId elemIsFloat weightOnly arch epi tb warp stages)],
     .ok (some (dev.computeOccupancyForKernel
       (mkKernelId elemIsFloat weightOnly arch epi tb warp stages))))
  else if min 2 (dev.maximumActiveBlocks
      (mkKernelId elemIsFloat weightOnly arch epi tb warp stages)) = 0 then
    ([Event.maxActiveBlocksQuery (mkKernelId elemIsFloat weightOnly arch epi tb warp stages)],
     .error "[FT Error][MoE Runner] GPU lacks the shared memory resources to run GroupedGEMM kernel")
  else
    match dev.canImplement (mkKernelId elemIsFloat weightOnly arch epi tb warp stages) args with
    | some msg =>
      ([Event.maxActiveBlocksQuery (mkKernelId elemIsFloat weightOnly arch epi tb warp stages),
        Event.feasibilityCheck (mkKernelId elemIsFloat weightOnly arch epi tb warp stages)],
       .error ("[FT Error][MoE Runner] MoEFC kernel will fail for params. Error: " ++ msg))
    | none =>
      match dev.initGemm (mkKernelId elemIsFloat weightOnly arch epi tb warp stages) args with
      | some msg =>
        ([Event.maxActiveBlocksQuery (mkKernelId elemIsFloat weightOnly arch epi tb warp stages),
          Event.feasibilityCheck (mkKernelId elemIsFloat weightOnly arch epi tb warp stages),
          Event.kernelInit (mkKernelId elemIsFloat weightOnly arch epi tb warp stages)],
         .error ("[FT Error][MoE Runner] Failed to initialize cutlass variable batched gemm. Error: " ++ msg))
      | none =>
        match dev.runGemm (mkKernelId elemIsFloat weightOnly arch epi tb warp stages) args with
        | some msg =>
          ([Event.maxActiveBlocksQuery (mkKernelId elemIsFloat weightOnly arch epi tb warp stages),
            Event.feasibilityCheck (mkKernelId elemIsFloat weightOnly arch epi tb warp stages),
            Event.kernelInit (mkKernelId elemIsFloat weightOnly arch epi tb warp stages)],
           .error ("[FT Error][MoE Runner] Failed to run cutlass variable batched gemm. Error: " ++ msg))
        | none =>
          ([Event.maxActiveBlocksQuery (mkKernelId elemIsFloat weightOnly arch epi tb warp stages),
            Event.feasibilityCheck (mkKernelId elemIsFloat weightOnly arch epi tb warp stages),
            Event.kernelInit (mkKernelId elemIsFloat weightOnly arch epi tb warp stages),
            Event.kernelLaunch (mkKernelId elemIsFloat weightOnly arch epi tb warp stages)
              gemm_config
              (multi_processor_count * min 2 (dev.maximumActiveBlocks
                (mkKernelId elemIsFloat weightOnly arch epi tb warp stages)))
              args],
           .ok none)

/-- `dispatch_stages` (lines 159-197): the `Stages = 2` partial specialization
exists for every architecture; the `Stages > 2` partial specialization exists
only for `cutlass::arch::Sm80`; every other (arch, Stages) pair hits the
primary template, which throws without touching the device. -/
def dispatch_stages (dev : Device) (elemIsFloat weightOnly : Bool) (arch : Arch)
    (epi : EpilogueTag) (tb warp : GemmShape) (stages : Int) (args : GemmArgs)
    (gemm_config : CutlassGemmConfig) (multi_processor_count : Int)
    (probe : Bool) : DispatchResult :=
  if stages = 2 then
    generic_moe_gemm_kernelLauncher dev elemIsFloat weightOnly arch epi tb warp 2
      args gemm_config multi_processor_count probe
  else if arch = Arch.Sm80 ∧ stages > 2 then
    generic_moe_gemm_kernelLauncher dev elemIsFloat weightOnly arch epi tb warp stages
      args gemm_config multi_processor_count probe
  else
    ([], .error ("[FT Error][dispatch_stages::dispatch] Cutlass fpA_intB gemm. Not instantiates for arch "
      ++ toString arch.kMinComputeCapability ++ " with stages set to " ++ toString stages))

/-- `dispatch_gemm_config` (lines 199-226): switches on `gemm_config.stages`,
forwarding 2, 3 and 4 to the corresponding `dispatch_stages` instantiation and
throwing on any other value. -/
def dispatch_gemm_config (dev : Device) (elemIsFloat weightOnly : Bool) (arch : Arch)
    (epi : EpilogueTag) (tb warp : GemmShape) (args : GemmArgs)
    (gemm_config : CutlassGemmConfig) (multi_processor_count : Int)
    (probe : Bool) : DispatchResult :=
  if gemm_config.stages = 2 then
    dispatch_stages dev elemIsFloat weightOnly arch epi tb warp 2 args gemm_config
      multi_processor_count probe
  else if gemm_config.stages = 3 then
    dispatch_stages dev elemIsFloat weightOnly arch epi tb warp 3 args gemm_config
      multi_processor_count probe
  else if gemm_config.stages = 4 then
    dispatch_stages dev elemIsFloat weightOnly arch epi tb warp 4 args gemm_config
      multi_processor_count probe
  else
    ([], .error ("[FT Error][MoE][dispatch_gemm_config] dispatch_gemm_config does not support stages "
      ++ toString gemm_config.stages))

/-- `dispatch_moe_gemm_to_cutlass` (lines 228-335): three SFINAE overloads.
`elemIsFloat = true` selects the SIMT overload (`T == float`); otherwise
`weightOnly` selects between the mixed-type and the same-type tensorop
overloads.  Each overload switches on the tile tag, mapping each supported tag
to its threadblock/warp shapes and throwing on `Undefined`,
`ChooseWithHeuristic` or any tag it does not support. -/
def dispatch_moe_gemm_to_cutlass (dev : Device) (elemIsFloat weightOnly : Bool)
    (arch : Arch) (epi : EpilogueTag) (args : GemmArgs)
    (gemm_config : CutlassGemmConfig) (multi_processor_count : Int)
    (probe : Bool) : DispatchResult :=
  if elemIsFloat then
    match gemm_config.tile_config with
    | .CtaShape128x128x8_WarpShape64x64x8 =>
      dispatch_gemm_config dev elemIsFloat weightOnly arch epi ⟨128, 128, 8⟩ ⟨64, 64, 8⟩
        args gemm_config multi_processor_count probe
    | .Undefined =>
      ([], .error "[FT Error][dispatch_moe_gemm_to_cutlass][SIMT] gemm config undefined.")
    | .ChooseWithHeuristic =>
      ([], .error "[FT Error][dispatch_moe_gemm_to_cutlass][SIMT] gemm config should have already been set by heuristic.")
    | _ =>
      ([], .error "[FT Error][dispatch_moe_gemm_to_cutlass][SIMT] Unsupported config for float MoE gemm.")
  else if weightOnly then
    match gemm_config.tile_config with
    | .CtaShape32x128x64_WarpShape32x32x64 =>
      dispatch_gemm_config dev elemIsFloat weightOnly arch epi ⟨32, 128, 64⟩ ⟨32, 32, 64⟩
        args gemm_config multi_processor_count probe
    | .CtaShape64x128x64_WarpShape64x32x64 =>
      dispatch_gemm_config dev elemIsFloat weightOnly arch epi ⟨64, 128, 64⟩ ⟨64, 32, 64⟩
        args gemm_config multi_processor_count probe
    | .CtaShape128x128x64_WarpShape128x32x64 =>
      dispatch_gemm_config dev elemIsFloat weightOnly arch epi ⟨128, 128, 64⟩ ⟨128, 32, 64⟩
        args gemm_config multi_processor_count probe
    | .Undefined =>
      ([], .error "[FT Error][dispatch_moe_gemm_to_cutlass] gemm config undefined.")
    | .ChooseWithHeuristic =>
      ([], .error "[FT Error][dispatch_moe_gemm_to_cutlass] gemm config should have already been set by heuristic.")
    | _ =>
      ([], .error "[FT Error][dispatch_moe_gemm_to_cutlass] Config is invalid for mixed type tensorop GEMM.")
  else
    match gemm_config.tile_config with
    | .CtaShape32x128x64_WarpShape32x32x64 =>
      dispatch_gemm_config dev elemIsFloat weightOnly arch epi ⟨32, 128, 64⟩ ⟨32, 32, 64⟩
        args gemm_config multi_processor_count probe
    | .CtaShape64x128x64_WarpShape32x64x64 =>
      dispatch_gemm_config dev elemIsFloat weightOnly arch epi ⟨64, 128, 64⟩ ⟨32, 64, 64⟩
        args gemm_config multi_processor_count probe
    | .CtaShape128x128x64_WarpShape64x32x64 =>
      dispatch_gemm_config dev elemIsFloat weightOnly arch epi ⟨128, 128, 64⟩ ⟨64, 32, 64⟩
        args gemm_config multi_processor_count probe
    | .Undefined =>
      ([], .error "[FT Error][dispatch_moe_gemm_to_cutlass] gemm config undefined.")
    | .ChooseWithHeuristic =>
      ([], .error "[FT Error][dispatch_moe_gemm_to_cutlass] gemm config should have already been set by heuristic.")
    | _ =>
      ([], .error "[FT Error][dispatch_moe_gemm_to_cutlass] Config is invalid for same type MoE tensorop GEMM.")

/-- `MoeGemmRunner::dispatch_to_arch` (lines 348-371): routes on the stored
`sm_` value: `[70, 75)` to `Sm70`, `[75, 80)` to `Sm75`, `[80, 90)` to `Sm80`,
anything else throws the unsupported-architecture error. -/
def dispatch_to_arch (dev : Device) (elemIsFloat weightOnly : Bool) (sm : Int)
    (multi_processor_count : Int) (epi : EpilogueTag) (args : GemmArgs)
    (gemm_config : CutlassGemmConfig) (probe : Bool) : DispatchResult :=
  if 70 ≤ sm ∧ sm < 75 then
    dispatch_moe_gemm_to_cutlass dev elemIsFloat weightOnly Arch.Sm70 epi args
      gemm_config multi_processor_count probe
  else if 75 ≤ sm ∧ sm < 80 then
    dispatch_moe_gemm_to_cutlass dev elemIsFloat weightOnly Arch.Sm75 epi args
      gemm_config multi_processor_count probe
  else if 80 ≤ sm ∧ sm < 90 then
    dispatch_moe_gemm_to_cutlass dev elemIsFloat weightOnly Arch.Sm80 epi args
      gemm_config multi_processor_count probe
  else
    ([], .error "[FT Error][MoE][GEMM Dispatch] Arch unsupported for MoE GEMM")

/-- Modelled from the spec: `get_candidate_configs` lives in
`cutlass_heuristic.cc/h`, which is not under `src/`.  The spec's Configuration
Catalog contract: a finite, ordered, deterministic list per
(architecture tier, precision path); the SIMT-only path (float) has exactly one
tile/warp family and only the minimum pipeline depth; the weight-quantized path
has one fewer tile-shape option than the uniform path; pipeline depth 2 is
always legal and depths 3 and 4 are added only on the top tier (sm >= 80);
split-k stays "no split" for every catalog entry. -/
def get_candidate_tiles (is_weight_only simt_configs_only : Bool) :
    List CutlassTileConfig :=
  if simt_configs_only then
    [.CtaShape128x128x8_WarpShape64x64x8]
  else if is_weight_only then
    [.CtaShape32x128x64_WarpShape32x32x64,
     .CtaShape64x128x64_WarpShape64x32x64]
  else
    [.CtaShape32x128x64_WarpShape32x32x64,
     .CtaShape64x128x64_WarpShape32x64x64,
     .CtaShape128x128x64_WarpShape64x32x64]

/-- Modelled from the spec: stage range of the Configuration Catalog
(`cutlass_heuristic.cc` is not under `src/`): depth 2 always; depths up to 4
only on the top tier. -/
def candidate_stage_list (sm : Int) : List Int :=
  if sm ≥ 80 then [2, 3, 4] else [2]

/-- Modelled from the spec: `get_candidate_configs` (from
`cutlass_heuristic.cc/h`, not under `src/`): the ordered catalog, one entry per
(tile, stages) pair, all with split-k disabled. -/
def get_candidate_configs (sm : Int) (is_weight_only simt_configs_only : Bool) :
    List CutlassGemmConfig :=
  (get_candidate_tiles is_weight_only simt_configs_only).flatMap fun tile =>
    (candidate_stage_list sm).map fun s =>
      ⟨tile, SplitKStyle.NO_SPLIT_K, 1, s⟩

/-- One fold step of the heuristic: keep the candidate/occupancy pair with the
strictly larger occupancy, first-seen wins ties. -/
def pickBetter (best : Option (CutlassGemmConfig × Int)) (p : CutlassGemmConfig × Int) :
    Option (CutlassGemmConfig × Int) :=
  match best with
  | none => some p
  | some b => if p.2 > b.2 then some p else best

/-- Modelled from the spec: `estimate_best_config_from_occupancies` lives in
`cutlass_heuristic.cc/h`, not under `src/`.  Spec contract (Heuristic
Selector): a pure, deterministic function of the candidate list, their
occupancies, the problem shape and the concurrency budget; candidates with
zero occupancy are excluded; exactly one candidate is chosen; if no candidate
is viable the failure is a fatal capability error.  The exact scoring formula
is implementation-defined; this model scores by achievable occupancy with
first-seen tie-breaking. -/
def estimate_best_config_from_occupancies (candidate_configs : List CutlassGemmConfig)
    (occupancies : List Int) (_total_rows _gemm_n _gemm_k _num_experts : Int)
    (_split_k_limit : Int) (_workspace_bytes : Int) (_multi_processor_count : Int)
    (_is_weight_only : Bool) : Except String CutlassGemmConfig :=
  match ((candidate_configs.zip occupancies).filter fun p => p.2 > 0).foldl
      pickBetter none with
  | some p => .ok p.1
  | none => .error "[FT Error] Heuristic failed to find a valid config."

/-- The occupancy-probing loop of `run_gemm` (lines 384-387): probe each
candidate in order with the occupancy out-pointer set; the first thrown error
aborts the whole loop.  The occupancy slot for a candidate keeps its
zero-initialized value if the launcher returns without writing it
(`std::vector<int> occupancies(n)` zero-initializes). -/
def probe_loop (dev : Device) (elemIsFloat weightOnly : Bool) (sm mpc : Int)
    (epi : EpilogueTag) (args : GemmArgs) :
    List CutlassGemmConfig → List Event × Except String (List Int)
  | [] => ([], .ok [])
  | c :: cs =>
    let r := dispatch_to_arch dev elemIsFloat weightOnly sm mpc epi args c true
    match r.2 with
    | .error e => (r.1, .error e)
    | .ok w =>
      let rest := probe_loop dev elemIsFloat weightOnly sm mpc epi args cs
      match rest.2 with
      | .error e => (r.1 ++ rest.1, .error e)
      | .ok occs => (r.1 ++ rest.1, .ok (w.getD 0 :: occs))

/-- The tail of `run_gemm` after the candidate list is built (lines 384-396):
probe every candidate, pick the best configuration from the occupancies
(`split_k_limit = 1`, `workspace_bytes = 0`), then dispatch once more with the
chosen configuration and a null occupancy pointer. -/
def run_gemm_with_candidates (dev : Device) (elemIsFloat weightOnly : Bool)
    (sm mpc : Int) (epi : EpilogueTag) (args : GemmArgs)
    (candidate_configs : List CutlassGemmConfig) : List Event × Except String Unit :=
  match probe_loop dev elemIsFloat weightOnly sm mpc epi args candidate_configs with
  | (ev1, .error e) => (ev1, .error e)
  | (ev1, .ok occupancies) =>
    match estimate_best_config_from_occupancies candidate_configs occupancies
        args.total_rows args.gemm_n args.gemm_k args.num_experts 1 0 mpc weightOnly with
    | .error e => (ev1, .error e)
    | .ok chosen_config =>
      match dispatch_to_arch dev elemIsFloat weightOnly sm mpc epi args
          chosen_config false with
      | (ev2, .error e) => (ev1 ++ ev2, .error e)
      | (ev2, .ok _) => (ev1 ++ ev2, .ok ())

/-- `MoeGemmRunner::run_gemm` (lines 373-397): build the candidate catalog for
the stored architecture and the precision path
(`is_weight_only = !std::is_same<T, WeightType>`,
`only_simt_configs = std::is_same<T, float>`), then probe, select and launch. -/
def run_gemm (dev : Device) (elemIsFloat weightOnly : Bool) (sm mpc : Int)
    (epi : EpilogueTag) (args : GemmArgs) : List Event × Except String Unit :=
  run_gemm_with_candidates dev elemIsFloat weightOnly sm mpc epi args
    (get_candidate_configs sm weightOnly elemIsFloat)

/-- `MoeGemmRunner::moe_gemm_bias_act` (lines 399-429): maps each activation
tag to its epilogue tag and runs; `InvalidType` (and the unreachable default)
throws before any dispatch. -/
def moe_gemm_bias_act (dev : Device) (elemIsFloat weightOnly : Bool) (sm mpc : Int)
    (args : GemmArgs) (activation_type : ActivationType) :
    List Event × Except String Unit :=
  match activation_type with
  | .Relu => run_gemm dev elemIsFloat weightOnly sm mpc .EpilogueOpBiasReLU args
  | .Gelu => run_gemm dev elemIsFloat weightOnly sm mpc .EpilogueOpBiasFtGelu args
  | .Silu => run_gemm dev elemIsFloat weightOnly sm mpc .EpilogueOpBiasSilu args
  | .Identity => run_gemm dev elemIsFloat weightOnly sm mpc .EpilogueOpBias args
  | .InvalidType =>
    ([], .error "[FT Error][MoE Runner] Invalid activation type for MoE GEMM")

/-- `MoeGemmRunner::moe_gemm` (lines 431-437): the no-bias entry point. -/
def moe_gemm (dev : Device) (elemIsFloat weightOnly : Bool) (sm mpc : Int)
    (args : GemmArgs) : List Event × Except String Unit :=
  run_gemm dev elemIsFloat weightOnly sm mpc .EpilogueOpNoBias args

/-! Concrete fixtures used to evaluate the model on closed inputs. -/

/-- A permissive device model: every kernel has occupancy 1, one active block,
and every CUTLASS status call succeeds. -/
def testDevice : Device where
  computeOccupancyForKernel := fun _ => 1
  maximumActiveBlocks := fun _ => 1
  canImplement := fun _ _ => none
  initGemm := fun _ _ => none
  runGemm := fun _ _ => none

/-- A device model on which no kernel has any active block
(`maximum_active_blocks() = 0` for every configuration). -/
def zeroBlockDevice : Device where
  computeOccupancyForKernel := fun _ => 0
  maximumActiveBlocks := fun _ => 0
  canImplement := fun _ _ => none
  initGemm := fun _ _ => none
  runGemm := fun _ _ => none

/-- The spec's end-to-end scenario shape: 8 experts, 1024 total rows,
`gemm_n = 4096`, `gemm_k = 1024`. -/
def args8 : GemmArgs :=
  ⟨1024, 4096, 1024, 8, [128, 256, 384, 512, 640, 768, 896, 1024]⟩

/-- A degenerate descriptor: `num_experts = 0` with a row-boundary table that
is inconsistent with it (one entry instead of zero). -/
def args0 : GemmArgs := ⟨1024, 4096, 1024, 0, [5]⟩

/-- A well-formed stages-2 tensorop configuration. -/
def goodCfg : CutlassGemmConfig :=
  ⟨.CtaShape32x128x64_WarpShape32x32x64, .NO_SPLIT_K, 1, 2⟩

/-- A configuration requesting serial split-k. -/
def splitKCfg : CutlassGemmConfig :=
  ⟨.CtaShape32x128x64_WarpShape32x32x64, .SPLIT_K_SERIAL, 2, 2⟩

/-- A configuration with a pipeline-stage count outside {2, 3, 4}. -/
def badStagesCfg : CutlassGemmConfig :=
  ⟨.CtaShape32x128x64_WarpShape32x32x64, .NO_SPLIT_K, 1, 5⟩

/-! Shape predicates describing what one dispatch can look like. -/

/-- Probe-mode outcome shape: either exactly one occupancy query whose result
is written through the out-pointer, or an error thrown with an empty trace. -/
def probeShape (dev : Device) (res : DispatchResult) : Prop :=
  (∃ k, res = ([Event.occupancyQuery k], Except.ok (some (dev.computeOccupancyForKernel k)))) ∨
  (res.1 = [] ∧ ∃ e, res.2 = Except.error e)

/-- Launch-mode outcome shape: either the full successful sequence
(max-active-blocks query, feasibility check, init, one launch of exactly the
given configuration with `threadblock_count = mpc * min 2 maximumActiveBlocks`),
or an error with no launch event in the trace. -/
def launchShape (dev : Device) (cfg : CutlassGemmConfig) (args : GemmArgs)
    (mpc : Int) (res : DispatchResult) : Prop :=
  (∃ k, res = ([Event.maxActiveBlocksQuery k, Event.feasibilityCheck k, Event.kernelInit k,
      Event.kernelLaunch k cfg (mpc * min 2 (dev.maximumActiveBlocks k)) args],
    Except.ok none)) ∨
  (res.1.countP Event.isLaunch = 0 ∧ ∃ e, res.2 = Except.error e)

/-! Layer-by-layer shape lemmas, probe mode. -/

lemma launcher_probeShape (dev : Device) (eF wO : Bool) (arch : Arch)
    (epi : EpilogueTag) (tb warp : GemmShape) (st : Int) (args : GemmArgs)
    (cfg : CutlassGemmConfig) (mpc : Int) :
    probeShape dev
      (generic_moe_gemm_kernelLauncher dev eF wO arch epi tb warp st args cfg mpc true) := by
  unfold generic_moe_gemm_kernelLauncher probeShape
  by_cases h : cfg.split_k_style = SplitKStyle.NO_SPLIT_K
  · simp [h]
  · simp [h]

lemma stages_probeShape (dev : Device) (eF wO : Bool) (arch : Arch)
    (epi : EpilogueTag) (tb warp : GemmShape) (st : Int) (args : GemmArgs)
    (cfg : CutlassGemmConfig) (mpc : Int) :
    probeShape dev
      (dispatch_stages dev eF wO arch epi tb warp st args cfg mpc true) := by
  unfold dispatch_stages
  by_cases h2 : st = 2
  · simp only [h2, if_pos rfl]
    exact launcher_probeShape ..
  · simp only [if_neg h2]
    by_cases h80 : arch = Arch.Sm80 ∧ st > 2
    · simp only [if_pos h80]
      exact launcher_probeShape ..
    · simp only [if_neg h80]
      exact Or.inr ⟨rfl, _, rfl⟩

lemma gemm_config_probeShape (dev : Device) (eF wO : Bool) (arch : Arch)
    (epi : EpilogueTag) (tb warp : GemmShape) (args : GemmArgs)
    (cfg : CutlassGemmConfig) (mpc : Int) :
    probeShape dev
      (dispatch_gemm_config dev eF wO arch epi tb warp args cfg mpc true) := by
  unfold dispatch_gemm_config
  by_cases h2 : cfg.stages = 2
  · simp only [if_pos h2]; exact stages_probeShape ..
  · simp only [if_neg h2]
    by_cases h3 : cfg.stages = 3
    · simp only [if_pos h3]; exact stages_probeShape ..
    · simp only [if_neg h3]
      by_cases h4 : cfg.stages = 4
      · simp only [if_pos h4]; exact stages_probeShape ..
      · simp only [if_neg h4]
        exact Or.inr ⟨rfl, _, rfl⟩

lemma cutlass_probeShape (dev : Device) (eF wO : Bool) (arch : Arch)
    (epi : EpilogueTag) (args : GemmArgs) (cfg : CutlassGemmConfig) (mpc : Int) :
    probeShape dev
      (dispatch_moe_gemm_to_cutlass dev eF wO arch epi args cfg mpc true) := by
  unfold dispatch_moe_gemm_to_cutlass
  cases eF <;> cases wO <;> simp only [Bool.false_eq_true, if_pos, if_neg,
    ite_true, ite_false, Bool.true_eq_false, not_false_eq_true] <;>
    cases h : cfg.tile_config <;>
    first
      | exact gemm_config_probeShape ..
      | exact Or.inr ⟨rfl, _, rfl⟩

lemma to_arch_probeShape (dev : Device) (eF wO : Bool) (sm mpc : Int)
    (epi : EpilogueTag) (args : GemmArgs) (cfg : CutlassGemmConfig) :
    probeShape dev
      (dispatch_to_arch dev eF wO sm mpc epi args cfg true) := by
  unfold dispatch_to_arch
  by_cases h70 : 70 ≤ sm ∧ sm < 75
  · simp only [if_pos h70]; exact cutlass_probeShape ..
  · simp only [if_neg h70]
    by_cases h75 : 75 ≤ sm ∧ sm < 80
    · simp only [if_pos h75]; exact cutlass_probeShape ..
    · simp only [if_neg h75]
      by_cases h80 : 80 ≤ sm ∧ sm < 90
      · simp only [if_pos h80]; exact cutlass_probeShape ..
      · simp only [if_neg h80]
        exact Or.inr ⟨rfl, _, rfl⟩

/-! Layer-by-layer shape lemmas, launch mode. -/

lemma launcher_launchShape (dev : Device) (eF wO : Bool) (arch : Arch)
    (epi : EpilogueTag) (tb warp : GemmShape) (st : Int) (args : GemmArgs)
    (cfg : CutlassGemmConfig) (mpc : Int) :
    launchShape dev cfg args mpc
      (generic_moe_gemm_kernelLauncher dev eF wO arch epi tb warp st args cfg mpc false) := by
  unfold generic_moe_gemm_kernelLauncher launchShape
  by_cases h : cfg.split_k_style = SplitKStyle.NO_SPLIT_K
  · by_cases hocc :
      min 2 (dev.maximumActiveBlocks (mkKernelId eF wO arch epi tb warp st)) = 0
    · simp [h, hocc, Event.isLaunch, List.countP, List.countP.go]
    · simp only [h, ne_eq, not_true_eq_false, if_false, Bool.false_eq_true,
        if_neg hocc, ite_false]
      cases hci : dev.canImplement (mkKernelId eF wO arch epi tb warp st) args with
      | some msg => exact Or.inr (by simp [Event.isLaunch, List.countP, List.countP.go])
      | none =>
        cases hin : dev.initGemm (mkKernelId eF wO arch epi tb warp st) args with
        | some msg => exact Or.inr (by simp [Event.isLaunch, List.countP, List.countP.go])
        | none =>
          cases hrun : dev.runGemm (mkKernelId eF wO arch epi tb warp st) args with
          | some msg => exact Or.inr (by simp [Event.isLaunch, List.countP, List.countP.go])
          | none => exact Or.inl ⟨_, rfl⟩
  · simp [h, List.countP, List.countP.go]

lemma stages_launchShape (dev : Device) (eF wO : Bool) (arch : Arch)
    (epi : EpilogueTag) (tb warp : GemmShape) (st : Int) (args : GemmArgs)
    (cfg : CutlassGemmConfig) (mpc : Int) :
    launchShape dev cfg args mpc
      (dispatch_stages dev eF wO arch epi tb warp st args cfg mpc false) := by
  unfold dispatch_stages
  by_cases h2 : st = 2
  · simp only [h2, if_pos rfl]
    exact launcher_launchShape ..
  · simp only [if_neg h2]
    by_cases h80 : arch = Arch.Sm80 ∧ st > 2
    · simp only [if_pos h80]
      exact launcher_launchShape ..
    · simp only [if_neg h80]
      exact Or.inr ⟨rfl, _, rfl⟩

lemma gemm_config_launchShape (dev : Device) (eF wO : Bool) (arch : Arch)
    (epi : EpilogueTag) (tb warp : GemmShape) (args : GemmArgs)
    (cfg : CutlassGemmConfig) (mpc : Int) :
    launchShape dev cfg args mpc
      (dispatch_gemm_config dev eF wO arch epi tb warp args cfg mpc false) := by
  unfold dispatch_gemm_config
  by_cases h2 : cfg.stages = 2
  · simp only [if_pos h2]; exact stages_launchShape ..
  · simp only [if_neg h2]
    by_cases h3 : cfg.stages = 3
    · simp only [if_pos h3]; exact stages_launchShape ..
    · simp only [if_neg h3]
      by_cases h4 : cfg.stages = 4
      · simp only [if_pos h4]; exact stages_launchShape ..
      · simp only [if_neg h4]
        exact Or.inr ⟨rfl, _, rfl⟩

lemma cutlass_launchShape (dev : Device) (eF wO : Bool) (arch : Arch)
    (epi : EpilogueTag) (args : GemmArgs) (cfg : CutlassGemmConfig) (mpc : Int) :
    launchShape dev cfg args mpc
      (dispatch_moe_gemm_to_cutlass dev eF wO arch epi args cfg mpc false) := by
  unfold dispatch_moe_gemm_to_cutlass
  cases eF <;> cases wO <;> simp only [Bool.false_eq_true, if_pos, if_neg,
    ite_true, ite_false, Bool.true_eq_false, not_false_eq_true] <;>
    cases h : cfg.tile_config <;>
    first
      | exact gemm_config_launchShape ..
      | exact Or.inr ⟨rfl, _, rfl⟩

lemma to_arch_launchShape (dev : Device) (eF wO : Bool) (sm mpc : Int)
    (epi : EpilogueTag) (args : GemmArgs) (cfg : CutlassGemmConfig) :
    launchShape dev cfg args mpc
      (dispatch_to_arch dev eF wO sm mpc epi args cfg false) := by
  unfold dispatch_to_arch
  by_cases h70 : 70 ≤ sm ∧ sm < 75
  · simp only [if_pos h70]; exact cutlass_launchShape ..
  · simp only [if_neg h70]
    by_cases h75 : 75 ≤ sm ∧ sm < 80
    · simp only [if_pos h75]; exact cutlass_launchShape ..
    · simp only [if_neg h75]
      by_cases h80 : 80 ≤ sm ∧ sm < 90
      · simp only [if_pos h80]; exact cutlass_launchShape ..
      · simp only [if_neg h80]
        exact Or.inr ⟨rfl, _, rfl⟩

/-! Probe-loop and heuristic lemmas. -/

lemma probe_loop_ok (dev : Device) (eF wO : Bool) (sm mpc : Int)
    (epi : EpilogueTag) (args : GemmArgs) :
    ∀ (cfgs : List CutlassGemmConfig) (ev : List Event) (occs : List Int),
      probe_loop dev eF wO sm mpc epi args cfgs = (ev, .ok occs) →
      ev.countP Event.isOccQuery = cfgs.length ∧ ev.countP Event.isLaunch = 0 ∧
        occs.length = cfgs.length := by
  intro cfgs
  induction cfgs with
  | nil =>
    intro ev occs h
    simp only [probe_loop, Prod.mk.injEq, Except.ok.injEq] at h
    obtain ⟨h1, h2⟩ := h
    subst h1; subst h2
    simp
  | cons c cs ih =>
    intro ev occs h
    rcases hr : dispatch_to_arch dev eF wO sm mpc epi args c true with ⟨ev1, r1⟩
    have hps := to_arch_probeShape dev eF wO sm mpc epi args c
    rw [hr] at hps
    simp only [probe_loop, hr] at h
    cases r1 with
    | error e => simp at h
    | ok w =>
      rcases hrest : probe_loop dev eF wO sm mpc epi args cs with ⟨ev2, r2⟩
      rw [hrest] at h
      cases r2 with
      | error e => simp at h
      | ok occs2 =>
        simp only [Prod.mk.injEq, Except.ok.injEq] at h
        obtain ⟨hev, hoccs⟩ := h
        subst hev; subst hoccs
        obtain ⟨i1, i2, i3⟩ := ih ev2 occs2 hrest
        rcases hps with ⟨k, hk⟩ | ⟨-, e, he⟩
        · have hk1 : ev1 = [Event.occupancyQuery k] := congrArg Prod.fst hk
          subst hk1
          simp [List.countP_append, List.countP_cons, i1, i2, i3,
            Event.isOccQuery, Event.isLaunch]
        · simp at he

lemma probe_loop_error (dev : Device) (eF wO : Bool) (sm mpc : Int)
    (epi : EpilogueTag) (args : GemmArgs) :
    ∀ (pre : List CutlassGemmConfig) (bad : CutlassGemmConfig)
      (rest : List CutlassGemmConfig) (evPre : List Event) (occs : List Int)
      (evBad : List Event) (e : String),
      probe_loop dev eF wO sm mpc epi args pre = (evPre, .ok occs) →
      dispatch_to_arch dev eF wO sm mpc epi args bad true = (evBad, .error e) →
      probe_loop dev eF wO sm mpc epi args (pre ++ bad :: rest) =
        (evPre ++ evBad, .error e) := by
  intro pre
  induction pre with
  | nil =>
    intro bad rest evPre occs evBad e hpre hbad
    simp only [probe_loop, Prod.mk.injEq, Except.ok.injEq] at hpre
    obtain ⟨h1, -⟩ := hpre
    subst h1
    simp only [List.nil_append, probe_loop, hbad]
  | cons c cs ih =>
    intro bad rest evPre occs evBad e hpre hbad
    rcases hr : dispatch_to_arch dev eF wO sm mpc epi args c true with ⟨ev1, r1⟩
    simp only [probe_loop, hr] at hpre ⊢
    cases r1 with
    | error e1 => simp at hpre
    | ok w =>
      rcases hrest : probe_loop dev eF wO sm mpc epi args cs with ⟨ev2, r2⟩
      rw [hrest] at hpre
      cases r2 with
      | error e2 => simp at hpre
      | ok occs2 =>
        simp only [Prod.mk.injEq, Except.ok.injEq] at hpre
        obtain ⟨hev, -⟩ := hpre
        subst hev
        have hrec := ih bad rest ev2 occs2 evBad e hrest hbad
        simp only [List.cons_append, probe_loop, hr, List.append_eq, hrec,
          List.append_assoc]

lemma foldl_pickBetter_mem :
    ∀ (l : List (CutlassGemmConfig × Int)) (acc : Option (CutlassGemmConfig × Int))
      (p : CutlassGemmConfig × Int),
      l.foldl pickBetter acc = some p → p ∈ l ∨ acc = some p := by
  intro l
  induction l with
  | nil => intro acc p h; exact Or.inr h
  | cons q l ih =>
    intro acc p h
    rcases ih (pickBetter acc q) p h with hmem | hacc
    · exact Or.inl (List.mem_cons_of_mem _ hmem)
    · cases acc with
      | none =>
        simp only [pickBetter] at hacc
        exact Or.inl (by rw [← Option.some.inj hacc]; exact List.mem_cons_self _ _)
      | some b =>
        simp only [pickBetter] at hacc
        by_cases hgt : q.2 > b.2
        · rw [if_pos hgt] at hacc
          exact Or.inl (by rw [← Option.some.inj hacc]; exact List.mem_cons_self _ _)
        · rw [if_neg hgt] at hacc
          exact Or.inr hacc

lemma estimate_ok_mem (candidate_configs : List CutlassGemmConfig)
    (occupancies : List Int) (tr n k ne skl wb mpc : Int) (iwo : Bool)
    (c : CutlassGemmConfig)
    (h : estimate_best_config_from_occupancies candidate_configs occupancies
      tr n k ne skl wb mpc iwo = .ok c) : c ∈ candidate_configs := by
  unfold estimate_best_config_from_occupancies at h
  rcases hf : ((candidate_configs.zip occupancies).filter fun p => p.2 > 0).foldl
      pickBetter none with _ | p
  · simp only [hf] at h
    exact absurd h (by simp)
  · simp only [hf, Except.ok.injEq] at h
    subst h
    rcases foldl_pickBetter_mem _ none p hf with hmem | habs
    · have hz := List.mem_filter.mp hmem
      exact (List.of_mem_zip hz.1).1
    · simp at habs

/-! Architecture-band resolution lemmas. -/

lemma to_arch_sm70 (dev : Device) (eF wO : Bool) (sm mpc : Int) (epi : EpilogueTag)
    (args : GemmArgs) (cfg : CutlassGemmConfig) (probe : Bool)
    (h : 70 ≤ sm ∧ sm < 75) :
    dispatch_to_arch dev eF wO sm mpc epi args cfg probe =
      dispatch_moe_gemm_to_cutlass dev eF wO Arch.Sm70 epi args cfg mpc probe := by
  unfold dispatch_to_arch
  rw [if_pos h]

lemma to_arch_sm75 (dev : Device) (eF wO : Bool) (sm mpc : Int) (epi : EpilogueTag)
    (args : GemmArgs) (cfg : CutlassGemmConfig) (probe : Bool)
    (h : 75 ≤ sm ∧ sm < 80) :
    dispatch_to_arch dev eF wO sm mpc epi args cfg probe =
      dispatch_moe_gemm_to_cutlass dev eF wO Arch.Sm75 epi args cfg mpc probe := by
  unfold dispatch_to_arch
  rw [if_neg (by omega), if_pos h]

lemma to_arch_sm80 (dev : Device) (eF wO : Bool) (sm mpc : Int) (epi : EpilogueTag)
    (args : GemmArgs) (cfg : CutlassGemmConfig) (probe : Bool)
    (h : 80 ≤ sm ∧ sm < 90) :
    dispatch_to_arch dev eF wO sm mpc epi args cfg probe =
      dispatch_moe_gemm_to_cutlass dev eF wO Arch.Sm80 epi args cfg mpc probe := by
  unfold dispatch_to_arch
  rw [if_neg (by omega), if_neg (by omega), if_pos h]

lemma to_arch_unsupported (dev : Device) (eF wO : Bool) (sm mpc : Int)
    (epi : EpilogueTag) (args : GemmArgs) (cfg : CutlassGemmConfig) (probe : Bool)
    (h : sm < 70 ∨ 90 ≤ sm) :
    dispatch_to_arch dev eF wO sm mpc epi args cfg probe =
      ([], .error "[FT Error][MoE][GEMM Dispatch] Arch unsupported for MoE GEMM") := by
  unfold dispatch_to_arch
  rw [if_neg (by omega), if_neg (by omega), if_neg (by omega)]

/-! Helper lemmas about the run-level control flow. -/

lemma run_trace_starts_with_probe (dev : Device) (eF wO : Bool) (sm mpc : Int)
    (epi : EpilogueTag) (args : GemmArgs) (cands : List CutlassGemmConfig) :
    ∃ suffix, (run_gemm_with_candidates dev eF wO sm mpc epi args cands).1 =
      (probe_loop dev eF wO sm mpc epi args cands).1 ++ suffix := by
  unfold run_gemm_with_candidates
  rcases hp : probe_loop dev eF wO sm mpc epi args cands with ⟨ev1, r1⟩
  cases r1 with
  | error e => exact ⟨[], by simp⟩
  | ok occs =>
    cases hest : estimate_best_config_from_occupancies cands occs
        args.total_rows args.gemm_n args.gemm_k args.num_experts 1 0 mpc wO with
    | error e => exact ⟨[], by simp [hest]⟩
    | ok chosen =>
      rcases hf : dispatch_to_arch dev eF wO sm mpc epi args chosen false with ⟨ev2, r2⟩
      cases r2 with
      | error e => exact ⟨ev2, by simp [hest, hf]⟩
      | ok v => exact ⟨ev2, by simp [hest, hf]⟩

lemma probe_loop_head (dev : Device) (eF wO : Bool) (sm mpc : Int)
    (epi : EpilogueTag) (args : GemmArgs) (c : CutlassGemmConfig)
    (cs : List CutlassGemmConfig) (k : KernelId) (w : Option Int)
    (h : dispatch_to_arch dev eF wO sm mpc epi args c true =
      ([Event.occupancyQuery k], .ok w)) :
    ∃ rest, (probe_loop dev eF wO sm mpc epi args (c :: cs)).1 =
      Event.occupancyQuery k :: rest := by
  simp only [probe_loop, h]
  rcases hrest : probe_loop dev eF wO sm mpc epi args cs with ⟨ev2, r2⟩
  cases r2 <;> exact ⟨ev2, by simp⟩

lemma catalog_head_probe (dev : Device) (eF wO : Bool) (sm mpc : Int)
    (epi : EpilogueTag) (args : GemmArgs) (h70 : 70 ≤ sm) (h90 : sm < 90) :
    ∃ c cs k w, get_candidate_configs sm wO eF = c :: cs ∧
      dispatch_to_arch dev eF wO sm mpc epi args c true =
        ([Event.occupancyQuery k], .ok w) := by
  obtain ⟨arch, harch⟩ : ∃ a, ∀ cfg, dispatch_to_arch dev eF wO sm mpc epi args cfg true =
      dispatch_moe_gemm_to_cutlass dev eF wO a epi args cfg mpc true := by
    by_cases h80 : 80 ≤ sm
    · exact ⟨Arch.Sm80, fun cfg => to_arch_sm80 dev eF wO sm mpc epi args cfg true ⟨h80, h90⟩⟩
    · by_cases h75 : 75 ≤ sm
      · exact ⟨Arch.Sm75, fun cfg => to_arch_sm75 dev eF wO sm mpc epi args cfg true ⟨h75, by omega⟩⟩
      · exact ⟨Arch.Sm70, fun cfg => to_arch_sm70 dev eF wO sm mpc epi args cfg true ⟨h70, by omega⟩⟩
  obtain ⟨srest, hs⟩ : ∃ srest, candidate_stage_list sm = 2 :: srest := by
    unfold candidate_stage_list
    by_cases h80 : 80 ≤ sm
    · exact ⟨[3, 4], by rw [if_pos (by omega)]⟩
    · exact ⟨[], by rw [if_neg (by omega)]⟩
  cases eF with
  | true =>
    refine ⟨⟨.CtaShape128x128x8_WarpShape64x64x8, .NO_SPLIT_K, 1, 2⟩,
      (srest.map fun s =>
        (⟨.CtaShape128x128x8_WarpShape64x64x8, .NO_SPLIT_K, 1, s⟩ : CutlassGemmConfig)) ++ [],
      mkKernelId true wO arch epi ⟨128, 128, 8⟩ ⟨64, 64, 8⟩ 2,
      some (dev.computeOccupancyForKernel
        (mkKernelId true wO arch epi ⟨128, 128, 8⟩ ⟨64, 64, 8⟩ 2)), ?_, ?_⟩
    · unfold get_candidate_configs
      rw [hs]
      rfl
    · rw [harch]
      rfl
  | false =>
    cases wO with
    | true =>
      refine ⟨⟨.CtaShape32x128x64_WarpShape32x32x64, .NO_SPLIT_K, 1, 2⟩,
        (srest.map fun s =>
          (⟨.CtaShape32x128x64_WarpShape32x32x64, .NO_SPLIT_K, 1, s⟩ : CutlassGemmConfig)) ++
          (((candidate_stage_list sm).map fun s =>
            (⟨.CtaShape64x128x64_WarpShape64x32x64, .NO_SPLIT_K, 1, s⟩ : CutlassGemmConfig)) ++ []),
        mkKernelId false true arch epi ⟨32, 128, 64⟩ ⟨32, 32, 64⟩ 2,
        some (dev.computeOccupancyForKernel
          (mkKernelId false true arch epi ⟨32, 128, 64⟩ ⟨32, 32, 64⟩ 2)), ?_, ?_⟩
      · unfold get_candidate_configs
        rw [hs]
        rfl
      · rw [harch]
        rfl
    | false =>
      refine ⟨⟨.CtaShape32x128x64_WarpShape32x32x64, .NO_SPLIT_K, 1, 2⟩,
        (srest.map fun s =>
          (⟨.CtaShape32x128x64_WarpShape32x32x64, .NO_SPLIT_K, 1, s⟩ : CutlassGemmConfig)) ++
          (((candidate_stage_list sm).map fun s =>
            (⟨.CtaShape64x128x64_WarpShape32x64x64, .NO_SPLIT_K, 1, s⟩ : CutlassGemmConfig)) ++
          (((candidate_stage_list sm).map fun s =>
            (⟨.CtaShape128x128x64_WarpShape64x32x64, .NO_SPLIT_K, 1, s⟩ : CutlassGemmConfig)) ++ [])),
        mkKernelId false false arch epi ⟨32, 128, 64⟩ ⟨32, 32, 64⟩ 2,
        some (dev.computeOccupancyForKernel
          (mkKernelId false false arch epi ⟨32, 128, 64⟩ ⟨32, 32, 64⟩ 2)), ?_, ?_⟩
      · unfold get_candidate_configs
        rw [hs]
        rfl
      · rw [harch]
        rfl

/-! Claim theorems. -/

/-- C2: `dispatch_to_arch` routes every call by the stored compute capability:
`sm ∈ [70, 75)` to the Sm70 path, `sm ∈ [75, 80)` to the Sm75 path,
`sm ∈ [80, 90)` to the Sm80 path, and every `sm` outside `[70, 90)` fails with
the fatal unsupported-architecture error, with an empty effect trace (no
fallback, no kernel launch). -/
theorem dispatch_to_arch_routes_by_compute_capability (dev : Device) (eF wO : Bool)
    (sm mpc : Int) (epi : EpilogueTag) (args : GemmArgs) (cfg : CutlassGemmConfig)
    (probe : Bool) :
    (70 ≤ sm ∧ sm < 75 →
      dispatch_to_arch dev eF wO sm mpc epi args cfg probe =
        dispatch_moe_gemm_to_cutlass dev eF wO Arch.Sm70 epi args cfg mpc probe) ∧
    (75 ≤ sm ∧ sm < 80 →
      dispatch_to_arch dev eF wO sm mpc epi args cfg probe =
        dispatch_moe_gemm_to_cutlass dev eF wO Arch.Sm75 epi args cfg mpc probe) ∧
    (80 ≤ sm ∧ sm < 90 →
      dispatch_to_arch dev eF wO sm mpc epi args cfg probe =
        dispatch_moe_gemm_to_cutlass dev eF wO Arch.Sm80 epi args cfg mpc probe) ∧
    (sm < 70 ∨ 90 ≤ sm →
      dispatch_to_arch dev eF wO sm mpc epi args cfg probe =
        ([], .error "[FT Error][MoE][GEMM Dispatch] Arch unsupported for MoE GEMM")) :=
  ⟨to_arch_sm70 dev eF wO sm mpc epi args cfg probe,
   to_arch_sm75 dev eF wO sm mpc epi args cfg probe,
   to_arch_sm80 dev eF wO sm mpc epi args cfg probe,
   to_arch_unsupported dev eF wO sm mpc epi args cfg probe⟩

/-- C2 witness: compute capability 72 routes to the Sm70 path, and compute
capability 100 fails with the unsupported-architecture error and an empty
trace. -/
theorem dispatch_to_arch_routes_witness :
    (dispatch_to_arch testDevice false false 72 4 .EpilogueOpBiasReLU args8 goodCfg false =
      dispatch_moe_gemm_to_cutlass testDevice false false Arch.Sm70 .EpilogueOpBiasReLU
        args8 goodCfg 4 false) ∧
    (dispatch_to_arch testDevice false false 100 4 .EpilogueOpBiasReLU args8 goodCfg false =
      ([], .error "[FT Error][MoE][GEMM Dispatch] Arch unsupported for MoE GEMM")) :=
  ⟨(dispatch_to_arch_routes_by_compute_capability testDevice false false 72 4
      .EpilogueOpBiasReLU args8 goodCfg false).1 (by decide),
   (dispatch_to_arch_routes_by_compute_capability testDevice false false 100 4
      .EpilogueOpBiasReLU args8 goodCfg false).2.2.2 (Or.inr (by decide))⟩

/-- C4: `moe_gemm_bias_act` maps each of the four valid activation tags to its
fused bias+activation epilogue variant (Relu to `EpilogueOpBiasReLU`, Gelu to
`EpilogueOpBiasFtGelu`, Silu to `EpilogueOpBiasSilu`, Identity to
`EpilogueOpBias`), and for the invalid/unset tag it throws a fatal error with
an empty effect trace — before any dispatch or kernel launch, never treating
it as Identity. -/
theorem moe_gemm_bias_act_maps_activations (dev : Device) (eF wO : Bool)
    (sm mpc : Int) (args : GemmArgs) :
    moe_gemm_bias_act dev eF wO sm mpc args .Relu =
      run_gemm dev eF wO sm mpc .EpilogueOpBiasReLU args ∧
    moe_gemm_bias_act dev eF wO sm mpc args .Gelu =
      run_gemm dev eF wO sm mpc .EpilogueOpBiasFtGelu args ∧
    moe_gemm_bias_act dev eF wO sm mpc args .Silu =
      run_gemm dev eF wO sm mpc .EpilogueOpBiasSilu args ∧
    moe_gemm_bias_act dev eF wO sm mpc args .Identity =
      run_gemm dev eF wO sm mpc .EpilogueOpBias args ∧
    moe_gemm_bias_act dev eF wO sm mpc args .InvalidType =
      ([], .error "[FT Error][MoE Runner] Invalid activation type for MoE GEMM") :=
  ⟨rfl, rfl, rfl, rfl, rfl⟩

/-- C7: the Heuristic Selector is deterministic: two invocations with identical
candidate lists, occupancies, problem shape and concurrency budget select the
identical configuration — it is a pure function of those inputs. -/
theorem estimate_best_config_deterministic
    (c1 c2 : List CutlassGemmConfig) (o1 o2 : List Int)
    (tr1 tr2 n1 n2 k1 k2 e1 e2 skl1 skl2 wb1 wb2 mpc1 mpc2 : Int)
    (iwo1 iwo2 : Bool) (hc : c1 = c2) (ho : o1 = o2) (htr : tr1 = tr2)
    (hn : n1 = n2) (hk : k1 = k2) (he : e1 = e2) (hskl : skl1 = skl2)
    (hwb : wb1 = wb2) (hm : mpc1 = mpc2) (hw : iwo1 = iwo2) :
    estimate_best_config_from_occupancies c1 o1 tr1 n1 k1 e1 skl1 wb1 mpc1 iwo1 =
      estimate_best_config_from_occupancies c2 o2 tr2 n2 k2 e2 skl2 wb2 mpc2 iwo2 := by
  subst hc; subst ho; subst htr; subst hn; subst hk; subst he
  subst hskl; subst hwb; subst hm; subst hw
  rfl

/-- C7 witness: two identical concrete invocations of the heuristic agree. -/
theorem estimate_best_config_deterministic_witness :
    estimate_best_config_from_occupancies [goodCfg] [1] 1024 4096 1024 8 1 0 4 false =
      estimate_best_config_from_occupancies [goodCfg] [1] 1024 4096 1024 8 1 0 4 false :=
  estimate_best_config_deterministic [goodCfg] [goodCfg] [1] [1] 1024 1024 4096 4096
    1024 1024 8 8 1 1 0 0 4 4 false false rfl rfl rfl rfl rfl rfl rfl rfl rfl rfl

/-- C3: for every architecture tier, a pipeline-stage count outside {2, 3, 4}
makes `dispatch_gemm_config` throw the fatal stages error with an empty effect
trace (no kernel launch); and stages 3 or 4 on the two lower tiers (not Sm80)
make dispatch throw the fatal non-instantiated configuration error, also with
an empty trace, because stage counts above 2 are instantiated only for
Sm80. -/
theorem dispatch_gemm_config_stage_errors (dev : Device) (eF wO : Bool)
    (arch : Arch) (epi : EpilogueTag) (tb warp : GemmShape) (args : GemmArgs)
    (cfg : CutlassGemmConfig) (mpc : Int) (probe : Bool) :
    (cfg.stages ≠ 2 ∧ cfg.stages ≠ 3 ∧ cfg.stages ≠ 4 →
      dispatch_gemm_config dev eF wO arch epi tb warp args cfg mpc probe =
        ([], .error ("[FT Error][MoE][dispatch_gemm_config] dispatch_gemm_config does not support stages "
          ++ toString cfg.stages))) ∧
    ((cfg.stages = 3 ∨ cfg.stages = 4) → arch ≠ Arch.Sm80 →
      dispatch_gemm_config dev eF wO arch epi tb warp args cfg mpc probe =
        ([], .error ("[FT Error][dispatch_stages::dispatch] Cutlass fpA_intB gemm. Not instantiates for arch "
          ++ toString arch.kMinComputeCapability ++ " with stages set to "
          ++ toString cfg.stages))) := by
  constructor
  · intro ⟨h2, h3, h4⟩
    unfold dispatch_gemm_config
    rw [if_neg h2, if_neg h3, if_neg h4]
  · intro hst harch
    have hno : ¬(arch = Arch.Sm80 ∧ (3 : Int) > 2) := fun hc => harch hc.1
    have hno4 : ¬(arch = Arch.Sm80 ∧ (4 : Int) > 2) := fun hc => harch hc.1
    rcases hst with h3 | h4
    · unfold dispatch_gemm_config dispatch_stages
      rw [if_neg (by omega), if_pos h3, if_neg (by norm_num), if_neg hno, h3]
    · unfold dispatch_gemm_config dispatch_stages
      rw [if_neg (by omega), if_neg (by omega), if_pos h4, if_neg (by norm_num),
        if_neg hno4, h4]

/-- C3 witness: stages 5 is rejected with the stages error on Sm80, and a
stages-3 configuration is rejected with the non-instantiated error on Sm70. -/
theorem dispatch_gemm_config_stage_errors_witness :
    (dispatch_gemm_config testDevice false false Arch.Sm80 .EpilogueOpBiasReLU
      ⟨32, 128, 64⟩ ⟨32, 32, 64⟩ args8 badStagesCfg 4 false =
      ([], .error "[FT Error][MoE][dispatch_gemm_config] dispatch_gemm_config does not support stages 5")) ∧
    (dispatch_gemm_config testDevice false false Arch.Sm70 .EpilogueOpBiasReLU
      ⟨32, 128, 64⟩ ⟨32, 32, 64⟩ args8
      ⟨.CtaShape32x128x64_WarpShape32x32x64, .NO_SPLIT_K, 1, 3⟩ 4 false =
      ([], .error "[FT Error][dispatch_stages::dispatch] Cutlass fpA_intB gemm. Not instantiates for arch 70 with stages set to 3")) :=
  ⟨(dispatch_gemm_config_stage_errors testDevice false false Arch.Sm80
      .EpilogueOpBiasReLU ⟨32, 128, 64⟩ ⟨32, 32, 64⟩ args8 badStagesCfg 4 false).1
      (by decide),
   (dispatch_gemm_config_stage_errors testDevice false false Arch.Sm70
      .EpilogueOpBiasReLU ⟨32, 128, 64⟩ ⟨32, 32, 64⟩ args8
      ⟨.CtaShape32x128x64_WarpShape32x32x64, .NO_SPLIT_K, 1, 3⟩ 4 false).2
      (Or.inl (by decide)) (by decide)⟩

/-- C5: dispatch fails fast with a fatal error and an empty effect trace (no
kernel launch, no recovery) when the configuration requests split-k, and when
the tile tag is `Undefined` or `ChooseWithHeuristic` (in every precision-path
overload of `dispatch_moe_gemm_to_cutlass`). -/
theorem dispatch_rejects_splitk_and_placeholder_tiles (dev : Device)
    (eF wO : Bool) (arch : Arch) (epi : EpilogueTag) (tb warp : GemmShape)
    (st : Int) (args : GemmArgs) (cfg : CutlassGemmConfig) (mpc : Int)
    (probe : Bool) :
    (cfg.split_k_style ≠ SplitKStyle.NO_SPLIT_K →
      generic_moe_gemm_kernelLauncher dev eF wO arch epi tb warp st args cfg mpc probe =
        ([], .error "[FT Error][MoeGemm] Grouped gemm does not support split-k")) ∧
    (cfg.tile_config = CutlassTileConfig.Undefined ∨
        cfg.tile_config = CutlassTileConfig.ChooseWithHeuristic →
      (dispatch_moe_gemm_to_cutlass dev eF wO arch epi args cfg mpc probe).1 = [] ∧
      ∃ e, (dispatch_moe_gemm_to_cutlass dev eF wO arch epi args cfg mpc probe).2 =
        Except.error e) := by
  constructor
  · intro h
    unfold generic_moe_gemm_kernelLauncher
    rw [if_pos h]
  · intro h
    unfold dispatch_moe_gemm_to_cutlass
    rcases h with h | h <;>
      cases eF <;> cases wO <;> simp [h]

/-- C5 witness: a split-k configuration is rejected by the launcher, and an
`Undefined` tile tag is rejected by the dispatcher, both with empty traces. -/
theorem dispatch_rejects_splitk_witness :
    (generic_moe_gemm_kernelLauncher testDevice false false Arch.Sm80
      .EpilogueOpBiasReLU ⟨32, 128, 64⟩ ⟨32, 32, 64⟩ 2 args8 splitKCfg 4 false =
      ([], .error "[FT Error][MoeGemm] Grouped gemm does not support split-k")) ∧
    ((dispatch_moe_gemm_to_cutlass testDevice false false Arch.Sm80
        .EpilogueOpBiasReLU args8 ⟨.Undefined, .NO_SPLIT_K, 1, 2⟩ 4 false).1 = [] ∧
      ∃ e, (dispatch_moe_gemm_to_cutlass testDevice false false Arch.Sm80
        .EpilogueOpBiasReLU args8 ⟨.Undefined, .NO_SPLIT_K, 1, 2⟩ 4 false).2 =
        Except.error e) :=
  ⟨(dispatch_rejects_splitk_and_placeholder_tiles testDevice false false Arch.Sm80
      .EpilogueOpBiasReLU ⟨32, 128, 64⟩ ⟨32, 32, 64⟩ 2 args8 splitKCfg 4 false).1
      (by decide),
   (dispatch_rejects_splitk_and_placeholder_tiles testDevice false false Arch.Sm80
      .EpilogueOpBiasReLU ⟨32, 128, 64⟩ ⟨32, 32, 64⟩ 2 args8
      ⟨.Undefined, .NO_SPLIT_K, 1, 2⟩ 4 false).2 (Or.inl rfl)⟩

/-- C6: in launch mode the launcher computes
`occupancy = min 2 maximum_active_blocks`; if that is zero the call fails with
the fatal shared-memory capability error (no launch, no substituted
configuration), and every kernel launch it ever issues carries
`threadblock_count = multi_processor_count * occupancy`. -/
theorem launcher_threadblock_count_and_zero_occupancy (dev : Device)
    (eF wO : Bool) (arch : Arch) (epi : EpilogueTag) (tb warp : GemmShape)
    (st : Int) (args : GemmArgs) (cfg : CutlassGemmConfig) (mpc : Int) :
    (cfg.split_k_style = SplitKStyle.NO_SPLIT_K →
      min 2 (dev.maximumActiveBlocks (mkKernelId eF wO arch epi tb warp st)) = 0 →
      generic_moe_gemm_kernelLauncher dev eF wO arch epi tb warp st args cfg mpc false =
        ([Event.maxActiveBlocksQuery (mkKernelId eF wO arch epi tb warp st)],
         .error "[FT Error][MoE Runner] GPU lacks the shared memory resources to run GroupedGEMM kernel")) ∧
    (∀ k c t a, Event.kernelLaunch k c t a ∈
        (generic_moe_gemm_kernelLauncher dev eF wO arch epi tb warp st args cfg mpc false).1 →
      t = mpc * min 2 (dev.maximumActiveBlocks (mkKernelId eF wO arch epi tb warp st))) := by
  constructor
  · intro hsp hocc
    unfold generic_moe_gemm_kernelLauncher
    rw [if_neg (by simp [hsp]), if_neg (by simp), if_pos hocc]
  · intro k c t a hmem
    unfold generic_moe_gemm_kernelLauncher at hmem
    by_cases hsp : cfg.split_k_style = SplitKStyle.NO_SPLIT_K
    · rw [if_neg (by simp [hsp]), if_neg (by simp)] at hmem
      by_cases hocc :
          min 2 (dev.maximumActiveBlocks (mkKernelId eF wO arch epi tb warp st)) = 0
      · rw [if_pos hocc] at hmem
        simp at hmem
      · rw [if_neg hocc] at hmem
        cases hci : dev.canImplement (mkKernelId eF wO arch epi tb warp st) args with
        | some msg => rw [hci] at hmem; simp at hmem
        | none =>
          rw [hci] at hmem
          cases hin : dev.initGemm (mkKernelId eF wO arch epi tb warp st) args with
          | some msg => rw [hin] at hmem; simp at hmem
          | none =>
            rw [hin] at hmem
            cases hrun : dev.runGemm (mkKernelId eF wO arch epi tb warp st) args with
            | some msg => rw [hrun] at hmem; simp at hmem
            | none =>
              rw [hrun] at hmem
              simp only [List.mem_cons, List.mem_singleton, List.not_mem_nil,
                or_false] at hmem
              rcases hmem with h | h | h | h
              · simp at h
              · simp at h
              · simp at h
              · injection h
    · rw [if_pos hsp] at hmem
      simp at hmem

/-- C6 witness: on a device with zero active blocks the launcher fails with the
capability error, and on the permissive one-block device the issued launch has
`threadblock_count = 4 * min 2 1 = 4`. -/
theorem launcher_threadblock_count_witness :
    (generic_moe_gemm_kernelLauncher zeroBlockDevice false false Arch.Sm80
      .EpilogueOpBiasReLU ⟨32, 128, 64⟩ ⟨32, 32, 64⟩ 2 args8 goodCfg 4 false =
      ([Event.maxActiveBlocksQuery
          (mkKernelId false false Arch.Sm80 .EpilogueOpBiasReLU ⟨32, 128, 64⟩ ⟨32, 32, 64⟩ 2)],
       .error "[FT Error][MoE Runner] GPU lacks the shared memory resources to run GroupedGEMM kernel")) ∧
    (4 : Int) = 4 * min 2 (testDevice.maximumActiveBlocks
      (mkKernelId false false Arch.Sm80 .EpilogueOpBiasReLU ⟨32, 128, 64⟩ ⟨32, 32, 64⟩ 2)) :=
  ⟨(launcher_threadblock_count_and_zero_occupancy zeroBlockDevice false false
      Arch.Sm80 .EpilogueOpBiasReLU ⟨32, 128, 64⟩ ⟨32, 32, 64⟩ 2 args8 goodCfg 4).1
      (by decide) (by decide),
   (launcher_threadblock_count_and_zero_occupancy testDevice false false
      Arch.Sm80 .EpilogueOpBiasReLU ⟨32, 128, 64⟩ ⟨32, 32, 64⟩ 2 args8 goodCfg 4).2
      (mkKernelId false false Arch.Sm80 .EpilogueOpBiasReLU ⟨32, 128, 64⟩ ⟨32, 32, 64⟩ 2)
      goodCfg 4 args8 (by decide)⟩

/-- C8 counterexample: a call to the kernel launcher in occupancy-probe mode
(non-null occupancy out-pointer) whose configuration requests split-k does NOT
write the occupancy and return: the split-k check runs first and throws, so no
occupancy value is ever written.  This refutes the claim for *every* such
call. -/
theorem launcher_probe_splitk_counterexample :
    (generic_moe_gemm_kernelLauncher testDevice false false Arch.Sm80
      .EpilogueOpBiasReLU ⟨32, 128, 64⟩ ⟨32, 32, 64⟩ 2 args8 splitKCfg 4 true =
      ([], .error "[FT Error][MoeGemm] Grouped gemm does not support split-k")) ∧
    ∀ occ : Int, (generic_moe_gemm_kernelLauncher testDevice false false Arch.Sm80
      .EpilogueOpBiasReLU ⟨32, 128, 64⟩ ⟨32, 32, 64⟩ 2 args8 splitKCfg 4 true).2 ≠
      Except.ok (some occ) := by
  refine ⟨rfl, fun occ h => ?_⟩
  rw [show (generic_moe_gemm_kernelLauncher testDevice false false Arch.Sm80
      .EpilogueOpBiasReLU ⟨32, 128, 64⟩ ⟨32, 32, 64⟩ 2 args8 splitKCfg 4 true).2 =
      Except.error "[FT Error][MoeGemm] Grouped gemm does not support split-k" from rfl] at h
  exact absurd h (by simp)

/-- C8 (amended): for every call to the kernel launcher with a non-null
occupancy out-pointer whose configuration does not request split-k, the
launcher writes the computed occupancy and returns immediately: the effect
trace is exactly the one occupancy query — no feasibility check, no
initialization, no kernel launch, and no other device effect. -/
theorem launcher_probe_mode_is_pure_query (dev : Device) (eF wO : Bool)
    (arch : Arch) (epi : EpilogueTag) (tb warp : GemmShape) (st : Int)
    (args : GemmArgs) (cfg : CutlassGemmConfig) (mpc : Int)
    (h : cfg.split_k_style = SplitKStyle.NO_SPLIT_K) :
    generic_moe_gemm_kernelLauncher dev eF wO arch epi tb warp st args cfg mpc true =
      ([Event.occupancyQuery (mkKernelId eF wO arch epi tb warp st)],
       .ok (some (dev.computeOccupancyForKernel (mkKernelId eF wO arch epi tb warp st)))) := by
  unfold generic_moe_gemm_kernelLauncher
  rw [if_neg (by simp [h]), if_pos rfl]

/-- C1: when `run_gemm` succeeds, its effect trace splits into a probing phase
holding exactly one occupancy query per catalog candidate (and no launch),
followed by a final phase issuing exactly one kernel launch (and no further
probe), the launched configuration being exactly the one the heuristic
selected from the candidate list. -/
theorem run_gemm_probes_all_selects_one_launches_once (dev : Device)
    (eF wO : Bool) (sm mpc : Int) (epi : EpilogueTag) (args : GemmArgs)
    (tr : List Event) (h : run_gemm dev eF wO sm mpc epi args = (tr, .ok ())) :
    ∃ evProbe evFin occs chosen,
      tr = evProbe ++ evFin ∧
      probe_loop dev eF wO sm mpc epi args (get_candidate_configs sm wO eF) =
        (evProbe, .ok occs) ∧
      evProbe.countP Event.isOccQuery = (get_candidate_configs sm wO eF).length ∧
      evProbe.countP Event.isLaunch = 0 ∧
      estimate_best_config_from_occupancies (get_candidate_configs sm wO eF) occs
        args.total_rows args.gemm_n args.gemm_k args.num_experts 1 0 mpc wO =
        .ok chosen ∧
      chosen ∈ get_candidate_configs sm wO eF ∧
      evFin.countP Event.isOccQuery = 0 ∧
      evFin.countP Event.isLaunch = 1 ∧
      (∀ k c t a, Event.kernelLaunch k c t a ∈ evFin → c = chosen) := by
  unfold run_gemm run_gemm_with_candidates at h
  rcases hp : probe_loop dev eF wO sm mpc epi args (get_candidate_configs sm wO eF)
    with ⟨ev1, r1⟩
  rw [hp] at h
  cases r1 with
  | error e => simp at h
  | ok occs =>
    cases hest : estimate_best_config_from_occupancies (get_candidate_configs sm wO eF)
        occs args.total_rows args.gemm_n args.gemm_k args.num_experts 1 0 mpc wO with
    | error e => simp only [hest] at h; simp at h
    | ok chosen =>
      rcases hf : dispatch_to_arch dev eF wO sm mpc epi args chosen false with ⟨ev2, r2⟩
      cases r2 with
      | error e => simp only [hest, hf] at h; simp at h
      | ok v =>
        simp only [hest, hf, Prod.mk.injEq] at h
        obtain ⟨htr, -⟩ := h
        obtain ⟨i1, i2, i3⟩ := probe_loop_ok dev eF wO sm mpc epi args _ ev1 occs hp
        have hls := to_arch_launchShape dev eF wO sm mpc epi args chosen
        rw [hf] at hls
        rcases hls with ⟨k, hk⟩ | ⟨-, e, he⟩
        · have hev2 : ev2 = [Event.maxActiveBlocksQuery k, Event.feasibilityCheck k,
              Event.kernelInit k, Event.kernelLaunch k chosen
                (mpc * min 2 (dev.maximumActiveBlocks k)) args] := congrArg Prod.fst hk
          refine ⟨ev1, ev2, occs, chosen, htr.symm, rfl, i1, i2, hest,
            estimate_ok_mem _ _ _ _ _ _ _ _ _ _ _ hest, ?_, ?_, ?_⟩
          · subst hev2
            simp [Event.isOccQuery, List.countP_cons, List.countP_nil]
          · subst hev2
            simp [Event.isLaunch, List.countP_cons, List.countP_nil]
          · intro k' c t a hmem
            subst hev2
            simp only [List.mem_cons, List.not_mem_nil, or_false] at hmem
            rcases hmem with hh | hh | hh | hh
            · simp at hh
            · simp at hh
            · simp at hh
            · injection hh
        · simp at he

/-- C1 witness: the spec's end-to-end scenario (8 experts, 1024 rows,
`gemm_n = 4096`, `gemm_k = 1024`, uniform precision, top tier, ReLU epilogue)
probes all nine catalog candidates, selects one, and launches exactly once. -/
theorem run_gemm_probes_selects_launches_witness :
    ∃ evProbe evFin occs chosen,
      (run_gemm testDevice false false 80 4 .EpilogueOpBiasReLU args8).1 =
        evProbe ++ evFin ∧
      probe_loop testDevice false false 80 4 .EpilogueOpBiasReLU args8
        (get_candidate_configs 80 false false) = (evProbe, .ok occs) ∧
      evProbe.countP Event.isOccQuery = (get_candidate_configs 80 false false).length ∧
      evProbe.countP Event.isLaunch = 0 ∧
      estimate_best_config_from_occupancies (get_candidate_configs 80 false false) occs
        args8.total_rows args8.gemm_n args8.gemm_k args8.num_experts 1 0 4 false =
        .ok chosen ∧
      chosen ∈ get_candidate_configs 80 false false ∧
      evFin.countP Event.isOccQuery = 0 ∧
      evFin.countP Event.isLaunch = 1 ∧
      (∀ k c t a, Event.kernelLaunch k c t a ∈ evFin → c = chosen) :=
  run_gemm_probes_all_selects_one_launches_once testDevice false false 80 4
    .EpilogueOpBiasReLU args8
    (run_gemm testDevice false false 80 4 .EpilogueOpBiasReLU args8).1 rfl

/-- C9 counterexample: with `num_experts = 0` and a row-boundary table that is
inconsistent with it (`args0`), `run_gemm` is NOT rejected prior to any device
query: it performs occupancy probes (device queries), succeeds, and even
issues a kernel launch. -/
theorem run_gemm_no_early_descriptor_rejection :
    (run_gemm testDevice true false 70 4 .EpilogueOpBias args0).2 = .ok () ∧
    0 < (run_gemm testDevice true false 70 4 .EpilogueOpBias args0).1.countP
      Event.isOccQuery ∧
    (run_gemm testDevice true false 70 4 .EpilogueOpBias args0).1.countP
      Event.isLaunch = 1 :=
  ⟨rfl, by decide, by decide⟩

/-- C9 (amended): invocations with `num_experts = 0` or a row-boundary table
inconsistent with `num_experts` are not rejected before device queries: on any
supported architecture `run_gemm` starts with an occupancy probe (a device
query) regardless of the descriptor, and descriptor validation is left to the
kernel pre-flight check. -/
theorem run_gemm_queries_device_before_descriptor_checks (dev : Device)
    (eF wO : Bool) (sm mpc : Int) (epi : EpilogueTag) (args : GemmArgs)
    (_hdesc : args.num_experts = 0 ∨
      (args.total_rows_before_expert.length : Int) ≠ args.num_experts)
    (h70 : 70 ≤ sm) (h90 : sm < 90) :
    ∃ k rest, (run_gemm dev eF wO sm mpc epi args).1 =
      Event.occupancyQuery k :: rest := by
  obtain ⟨c, cs, k, w, hcat, hd⟩ := catalog_head_probe dev eF wO sm mpc epi args h70 h90
  obtain ⟨suffix, hsuf⟩ := run_trace_starts_with_probe dev eF wO sm mpc epi args
    (get_candidate_configs sm wO eF)
  have hcat' : probe_loop dev eF wO sm mpc epi args (get_candidate_configs sm wO eF) =
      probe_loop dev eF wO sm mpc epi args (c :: cs) := by
    rw [hcat]
  obtain ⟨rest, hrest⟩ := probe_loop_head dev eF wO sm mpc epi args c cs k w hd
  refine ⟨k, rest ++ suffix, ?_⟩
  have hrg : (run_gemm dev eF wO sm mpc epi args).1 =
      (run_gemm_with_candidates dev eF wO sm mpc epi args
        (get_candidate_configs sm wO eF)).1 := rfl
  rw [hrg, hsuf, hcat', hrest, List.cons_append]

/-- C9 (amended) witness: the degenerate descriptor `args0` on tier Sm80 still
leads with a device occupancy query. -/
theorem run_gemm_queries_device_witness :
    ∃ k rest, (run_gemm testDevice false false 80 4 .EpilogueOpBiasReLU args0).1 =
      Event.occupancyQuery k :: rest :=
  run_gemm_queries_device_before_descriptor_checks testDevice false false 80 4
    .EpilogueOpBiasReLU args0 (Or.inl (by decide)) (by decide) (by decide)

/-- C10: if any single candidate errors during the occupancy-probing loop of
`run_gemm`, the whole invocation aborts there: the result is that error, the
trace holds probes only for the candidates before the failing one (the rest
are never probed), no configuration is selected and no kernel is launched. -/
theorem run_gemm_aborts_on_first_failing_candidate (dev : Device) (eF wO : Bool)
    (sm mpc : Int) (epi : EpilogueTag) (args : GemmArgs)
    (pre : List CutlassGemmConfig) (bad : CutlassGemmConfig)
    (rest : List CutlassGemmConfig) (evPre : List Event) (occs : List Int)
    (evBad : List Event) (e : String)
    (hcat : get_candidate_configs sm wO eF = pre ++ bad :: rest)
    (hpre : probe_loop dev eF wO sm mpc epi args pre = (evPre, .ok occs))
    (hbad : dispatch_to_arch dev eF wO sm mpc epi args bad true = (evBad, .error e)) :
    run_gemm dev eF wO sm mpc epi args = (evPre ++ evBad, .error e) ∧
    (evPre ++ evBad).countP Event.isLaunch = 0 ∧
    (evPre ++ evBad).countP Event.isOccQuery = pre.length := by
  have hloop := probe_loop_error dev eF wO sm mpc epi args pre bad rest evPre occs
    evBad e hpre hbad
  have hbadshape := to_arch_probeShape dev eF wO sm mpc epi args bad
  rw [hbad] at hbadshape
  have hbadnil : evBad = [] := by
    rcases hbadshape with ⟨k, hk⟩ | ⟨h1, -, -⟩
    · exact absurd (congrArg Prod.snd hk) (by simp)
    · exact h1
  obtain ⟨i1, i2, i3⟩ := probe_loop_ok dev eF wO sm mpc epi args pre evPre occs hpre
  refine ⟨?_, ?_, ?_⟩
  · unfold run_gemm run_gemm_with_candidates
    rw [hcat, hloop]
  · simp [List.countP_append, i2, hbadnil]
  · simp [List.countP_append, i1, hbadnil]

/-- C10 witness: on an unsupported architecture (sm 60) the very first
candidate fails, `run_gemm` aborts with that error, and nothing was probed or
launched. -/
theorem run_gemm_aborts_witness :
    run_gemm testDevice false false 60 4 .EpilogueOpBiasReLU args8 =
      (([] : List Event) ++ ([] : List Event),
       .error "[FT Error][MoE][GEMM Dispatch] Arch unsupported for MoE GEMM") ∧
    (([] : List Event) ++ ([] : List Event)).countP Event.isLaunch = 0 ∧
    (([] : List Event) ++ ([] : List Event)).countP Event.isOccQuery =
      ([] : List CutlassGemmConfig).length :=
  run_gemm_aborts_on_first_failing_candidate testDevice false false 60 4
    .EpilogueOpBiasReLU args8 [] goodCfg
    [⟨.CtaShape64x128x64_WarpShape32x64x64, .NO_SPLIT_K, 1, 2⟩,
     ⟨.CtaShape128x128x64_WarpShape64x32x64, .NO_SPLIT_K, 1, 2⟩]
    [] [] []
    "[FT Error][MoE][GEMM Dispatch] Arch unsupported for MoE GEMM" rfl rfl rfl

/-- C8 (amended) witness: a concrete no-split-k probe call returns exactly the
occupancy query and the written occupancy. -/
theorem launcher_probe_mode_witness :
    generic_moe_gemm_kernelLauncher testDevice false false Arch.Sm80
      .EpilogueOpBiasReLU ⟨32, 128, 64⟩ ⟨32, 32, 64⟩ 2 args8 goodCfg 4 true =
      ([Event.occupancyQuery
          (mkKernelId false false Arch.Sm80 .EpilogueOpBiasReLU ⟨32, 128, 64⟩ ⟨32, 32, 64⟩ 2)],
       .ok (some (testDevice.computeOccupancyForKernel
          (mkKernelId false false Arch.Sm80 .EpilogueOpBiasReLU ⟨32, 128, 64⟩ ⟨32, 32, 64⟩ 2)))) :=
  launcher_probe_mode_is_pure_query testDevice false false Arch.Sm80
    .EpilogueOpBiasReLU ⟨32, 128, 64⟩ ⟨32, 32, 64⟩ 2 args8 goodCfg 4 (by decide)

end MoeGemm
